import Mathlib

set_option maxHeartbeats 1000000

/-!
Shallow embedding of the Websoitez transcription worker
(`src/celery_app.py`, plus the result-view mapping of `src/main.py`).

The embedding models:
* CPython's `shlex.quote` (used by `build_whisper_cmd` to escape values);
* POSIX shell field splitting, to reason about the
  `subprocess.run(" ".join(cmd), shell=True)` invocation in `transcribe_task`;
* `build_whisper_cmd` itself;
* the retry-wrapped downloader (`download_audio` under
  `@retry(stop=stop_after_attempt(3), wait=wait_fixed(2))`, and
  `safe_download_audio`);
* the job state machine `transcribe_task`, with its published progress
  events, created/removed temp directories and final result;
* the `/result` view mapping of `src/main.py` (`get_result`);
* the cookie refresh path `refresh_cookies` with the semantics of
  `redis_client.lock(COOKIE_LOCK, timeout=60)` (redis-py `Lock` defaults:
  `blocking=True`, `blocking_timeout=None`, so `__enter__` waits until the
  lock can be acquired).

External collaborators (yt-dlp, whisper-cli, the filesystem) are supplied
through an explicit environment `Env` so that the worker's control flow is
the code under test.
-/

namespace Websoitez

/-- Characters CPython's `shlex.quote` keeps unquoted: its `_find_unsafe`
regex (with `re.ASCII`) finds nothing, i.e. every character is ASCII
alphanumeric, an underscore, or one of `@ % + = : , . slash dash`. -/
def isSafeChar (c : Char) : Bool :=
  c.isAlpha || c.isDigit || c == '_' || c == '@' || c == '%' || c == '+' ||
    c == '=' || c == ':' || c == ',' || c == '.' || c == '/' || c == '-'

/-- Character-level model of `s.replace("'", "'\"'\"'")` as used inside
`shlex.quote`: every single-quote character is replaced by the five
characters close-quote, double-quote, quote, double-quote, reopen-quote. -/
def quoteBody : List Char → List Char
  | [] => []
  | c :: cs => (if c = '\'' then ['\'', '"', '\'', '"', '\''] else [c]) ++ quoteBody cs

/-- CPython `shlex.quote`: `''` for the empty string, the string itself if
every character is safe, otherwise the string wrapped in single quotes with
embedded single quotes escaped via `quoteBody`. -/
def shlexQuote (s : String) : String :=
  if s.data.isEmpty then "''"
  else if s.data.all isSafeChar then s
  else String.mk ('\'' :: (quoteBody s.data ++ ['\'']))

/-- Unquoted field separators of POSIX shell word splitting (default IFS). -/
def isIFS (c : Char) : Bool :=
  c == ' ' || c == '\t' || c == '\n'

/-- Lexer mode of the shell field splitter: outside quotes, inside single
quotes, inside double quotes. -/
inductive QMode
  | norm
  | insingle
  | indouble
deriving DecidableEq

/-- POSIX shell field splitting over characters: spaces separate words
outside quotes, single quotes protect everything up to the closing quote,
double quotes protect their contents up to the closing double quote.
`cur` is the word being accumulated and `started` records whether the
current word has begun (so that quoted empty words are still emitted). -/
def shellSplitAux : List Char → QMode → List Char → Bool → List (List Char)
  | [], .norm, cur, started => if started then [cur] else []
  | [], .insingle, cur, _ => [cur]
  | [], .indouble, cur, _ => [cur]
  | c :: cs, .norm, cur, started =>
    if isIFS c then
      if started then cur :: shellSplitAux cs .norm [] false
      else shellSplitAux cs .norm [] false
    else if c = '\'' then shellSplitAux cs .insingle cur true
    else if c = '"' then shellSplitAux cs .indouble cur true
    else shellSplitAux cs .norm (cur ++ [c]) true
  | c :: cs, .insingle, cur, started =>
    if c = '\'' then shellSplitAux cs .norm cur started
    else shellSplitAux cs .insingle (cur ++ [c]) started
  | c :: cs, .indouble, cur, started =>
    if c = '"' then shellSplitAux cs .norm cur started
    else shellSplitAux cs .indouble (cur ++ [c]) started

/-- The list of fields a POSIX shell obtains from a command string. -/
def shellFields (s : String) : List (List Char) :=
  shellSplitAux s.data .norm [] false

/-- Python `" ".join(cmd)` as applied to the built command list in
`transcribe_task` (line 208). -/
def joinSpace : List String → String
  | [] => ""
  | [s] => s
  | s :: rest => s ++ " " ++ joinSpace rest

/-- The transcription configuration read from the environment into
`WHISPER_CONFIG` (all optional values are kept as the strings the code
stores; `threads` is the integer the code converts with `str`). -/
structure WhisperConfig where
  model_path : String
  threads : Nat
  cli_path : String
  language : String
  translate : Bool
  split_on_word : Bool
  max_len : String
  max_context : String
  best_of : String
  beam_size : String

/-- Python `s or None` on a string: `None` for the empty string. Used for
the `--language`, `--max-context`, `--max-len`, `--best-of`, `--beam-size`
entries of the option dict in `build_whisper_cmd`. -/
def strOrNone (s : String) : Option String :=
  if s = "" then none else some s

/-- One iteration of the option loop of `build_whisper_cmd`: an option is
emitted as `[flag, quoted value]` when its value is not `None`, not `"0"`
and not the empty string, and omitted otherwise. The quoting function is a
parameter so that the quoted command can be compared with the raw argument
vector; the source applies `shlex.quote`. -/
def optEntry (q : String → String) (k : String) : Option String → List String
  | none => []
  | some v => if v ≠ "0" ∧ v ≠ "" then [k, q v] else []

/-- `build_whisper_cmd`, parameterised by the value-quoting function `q`
(the source uses `shlex.quote`): the quoted cli path, then the option dict
in its insertion order, then the output-format branch on `fmt`, then the
boolean-gated `--translate` and `--split-on-word` flags, then the quoted
audio path. -/
def whisperCmdWith (q : String → String) (cfg : WhisperConfig)
    (audio_path out_base_path fmt : String) : List String :=
  [q cfg.cli_path]
  ++ optEntry q "--model" (some cfg.model_path)
  ++ optEntry q "--threads" (some (toString cfg.threads))
  ++ optEntry q "--output-file" (some out_base_path)
  ++ optEntry q "--language" (strOrNone cfg.language)
  ++ optEntry q "--max-context" (strOrNone cfg.max_context)
  ++ optEntry q "--max-len" (strOrNone cfg.max_len)
  ++ optEntry q "--best-of" (strOrNone cfg.best_of)
  ++ optEntry q "--beam-size" (strOrNone cfg.beam_size)
  ++ (if fmt = "plain" then ["--output-txt", "--no-timestamps"]
      else if fmt = "timestamps" then ["--output-srt"] else [])
  ++ (if cfg.translate then ["--translate"] else [])
  ++ (if cfg.split_on_word then ["--split-on-word"] else [])
  ++ [q audio_path]

/-- `build_whisper_cmd` of `src/celery_app.py` (lines 151-178). -/
def buildWhisperCmd (cfg : WhisperConfig) (audio_path out_base_path fmt : String) :
    List String :=
  whisperCmdWith shlexQuote cfg audio_path out_base_path fmt

/-- The intended (unescaped) argument vector of the same command: the same
construction with the identity in place of `shlex.quote`. -/
def rawWhisperArgs (cfg : WhisperConfig) (audio_path out_base_path fmt : String) :
    List String :=
  whisperCmdWith id cfg audio_path out_base_path fmt

/-- The option dict of `build_whisper_cmd` as a flag/value table (in
insertion order), with the raw configured value of each option. -/
def optionTable (cfg : WhisperConfig) (out_base_path : String) :
    List (String × String) :=
  [("--model", cfg.model_path),
   ("--threads", toString cfg.threads),
   ("--output-file", out_base_path),
   ("--language", cfg.language),
   ("--max-context", cfg.max_context),
   ("--max-len", cfg.max_len),
   ("--best-of", cfg.best_of),
   ("--beam-size", cfg.beam_size)]

/-- All externally configurable values that flow into the command. -/
def inputValues (cfg : WhisperConfig) (audio_path out_base_path : String) :
    List String :=
  [cfg.cli_path, cfg.model_path, toString cfg.threads, out_base_path,
   cfg.language, cfg.max_context, cfg.max_len, cfg.best_of, cfg.beam_size,
   audio_path]

/-- The output-format markers the builder can emit. -/
def fmtMarkers : List String :=
  ["--output-txt", "--no-timestamps", "--output-srt"]

/-- The flag names of the option dict, in insertion order. -/
def optionFlags : List String :=
  ["--model", "--threads", "--output-file", "--language", "--max-context",
   "--max-len", "--best-of", "--beam-size"]

/-- Index of the last occurrence of `c` in `l` (Python `str.rfind`,
returning `none` instead of `-1`). -/
def rfindChar (l : List Char) (c : Char) : Option Nat :=
  match l.reverse.findIdx? (· = c) with
  | none => none
  | some j => some (l.length - 1 - j)

/-- POSIX `os.path.dirname`: everything up to the last slash, with the
trailing slashes stripped unless the head consists only of slashes. -/
def pyDirname (p : String) : String :=
  match rfindChar p.data '/' with
  | none => ""
  | some i =>
    let head := p.data.take (i + 1)
    if head.any (fun c => c ≠ '/') then
      String.mk ((head.reverse.dropWhile (fun c => c = '/')).reverse)
    else String.mk head

/-- The root part of POSIX `os.path.splitext`: the path is cut at its last
dot when that dot comes after the last slash and some character strictly
between them is not a dot (so names made only of leading dots keep their
extension-less form). -/
def pySplitextRoot (p : String) : String :=
  let l := p.data
  let sep : Int := match rfindChar l '/' with | none => -1 | some i => (i : Int)
  let dot : Int := match rfindChar l '.' with | none => -1 | some i => (i : Int)
  if sep < dot then
    let start := (sep + 1).toNat
    let stop := dot.toNat
    if ((l.drop start).take (stop - start)).any (fun c => c ≠ '.') then
      String.mk (l.take stop)
    else p
  else p

/-- ASCII whitespace recognised by the model of Python `str.strip`. -/
def isPyWhitespace (c : Char) : Bool :=
  c == ' ' || c == '\t' || c == '\n' || c == '\r' || c == '\x0b' || c == '\x0c'

/-- Python `str.strip()` (restricted to ASCII whitespace): drop whitespace
from both ends. -/
def pyStrip (s : String) : String :=
  String.mk (((s.data.dropWhile isPyWhitespace).reverse.dropWhile isPyWhitespace).reverse)

/-- What one yt-dlp download attempt does for the job's URL, as supplied by
the environment: the engine raises (network or extraction failure), or it
returns without raising but the expected WAV file is absent, or it
produces a media file with the given stem inside the attempt's temp
directory. -/
inductive AttemptOutcome
  | engineRaises (msg : String)
  | fileMissing
  | ok (stem : String)
deriving DecidableEq

/-- An exception raised inside one `download_audio` attempt. -/
inductive DlError
  | engine (msg : String)
  | fileNotFound
deriving DecidableEq

/-- Python `str` of the exception of a failed attempt: the engine's message,
or the message of the `FileNotFoundError` raised at line 130. -/
def dlMsg : DlError → String
  | .engine m => m
  | .fileNotFound => "yt-dlp did not produce a WAV file"

/-- The external world of one `transcribe_task` run: the outcome of each
download attempt, whether the whisper-cli process exits successfully, which
files that process produces (as a function of the command and the output
base path), and the content of the transcript file. -/
structure Env where
  attempts : Nat → AttemptOutcome
  whisperExit : Bool
  whisperOutputs : List String → String → List String
  transcriptContent : String

/-- The fresh temporary directory `tempfile.mkdtemp()` creates for download
attempt `i` (freshness is modelled by indexing with the attempt number). -/
def tmpDirName (i : Nat) : String :=
  "/tmp/dl" ++ toString i

/-- One body execution of `download_audio` (lines 97-130) as attempt `i`:
the temp dir is created first, then the engine runs; on success the WAV
path inside the temp dir is returned, a missing WAV raises
`FileNotFoundError`, an engine exception propagates. Returns the attempt's
result together with the temp directory it created. -/
def attemptRun (env : Env) (i : Nat) : Except DlError String × String :=
  let d := tmpDirName i
  match env.attempts i with
  | .engineRaises m => (.error (.engine m), d)
  | .fileMissing => (.error .fileNotFound, d)
  | .ok stem => (.ok (d ++ "/" ++ stem ++ ".wav"), d)

/-- Final outcome of the tenacity-wrapped call: the audio path, or a
`RetryError` holding the last attempt's exception. -/
inductive DlOutcome
  | ok (path : String)
  | retryError (last : DlError)
deriving DecidableEq

/-- A whole retry-wrapped download run: its outcome, the temp directories
created (one per attempt made), and the backoff sleeps performed between
attempts (seconds). -/
structure DlRun where
  outcome : DlOutcome
  dirs : List String
  waits : List Nat
deriving DecidableEq

/-- The tenacity retry loop `wait=wait_fixed(2)` around `download_audio`,
running attempt `i` with `remaining` further attempts allowed by
`stop_after_attempt`: a failed attempt is retried after a fixed 2-second
sleep while the budget lasts, and once it is spent the last exception is
wrapped in a `RetryError`. -/
def retryGo (env : Env) (i : Nat) : Nat → List String → List Nat → DlRun
  | remaining, dirs, waits =>
    match (attemptRun env i).1 with
    | .ok p => ⟨.ok p, dirs ++ [(attemptRun env i).2], waits⟩
    | .error e =>
      match remaining with
      | 0 => ⟨.retryError e, dirs ++ [(attemptRun env i).2], waits⟩
      | rem + 1 =>
        retryGo env (i + 1) rem (dirs ++ [(attemptRun env i).2]) (waits ++ [2])

/-- `download_audio` with its `@retry(stop=stop_after_attempt(3),
wait=wait_fixed(2))` decorator (lines 97-130): attempt 0 with 2 retries
still available, i.e. 3 total attempts. -/
def downloadAudioR (env : Env) : DlRun :=
  retryGo env 0 2 [] []

/-- An exception escaping the body of `transcribe_task`. -/
inductive JobError
  | downloadFailed (msg : String) (cause : DlError)
  | whisperFailed
  | transcriptMissing (path : String)
deriving DecidableEq

/-- `safe_download_audio` (lines 133-139): a `RetryError` is converted into
one generic `Exception` whose message embeds the last attempt's exception
and which carries that exception as its cause. -/
def safeDownloadAudio (env : Env) : Except JobError String :=
  match (downloadAudioR env).outcome with
  | .ok p => .ok p
  | .retryError last =>
    .error (.downloadFailed ("Download failed after retries: " ++ dlMsg last) last)

/-- Modelled from the spec: the transcription engine collaborator
"produces exactly one output file whose extension is deterministic from the
requested format": `out_base.txt` when the command requests `--output-txt`,
`out_base.srt` when it requests `--output-srt`, and nothing otherwise. -/
def specWhisperOutputs (cmd : List String) (outBase : String) : List String :=
  (if "--output-txt" ∈ cmd then [outBase ++ ".txt"] else []) ++
    (if "--output-srt" ∈ cmd then [outBase ++ ".srt"] else [])

/-- A progress transition published through `self.update_state` with
`state="PROGRESS"` and the given `step`/`progress` meta. -/
inductive Event
  | progress (step : String) (p : Nat)
deriving DecidableEq

/-- Observable effects of one `transcribe_task` run: its return value or
escaping exception, the published progress events in order, the temp
directories created by download attempts, and the directories removed by
the `finally` cleanup. -/
structure TaskOutcome where
  result : Except JobError String
  events : List Event
  createdDirs : List String
  removedDirs : List String

/-- `transcribe_task` (lines 187-226): publish `downloading/10`, download
(failures escape after `safe_download_audio` normalisation), publish
`transcribing/50`, build and run the whisper command via the shell
(`check=True` raises on a non-zero exit), publish `finalizing/90`, pick the
transcript extension from the format (`txt` only for `"plain"`, `srt`
otherwise), fail if that file is absent, else read and strip it, mapping an
empty transcript to the placeholder. The `finally` block removes the
directory of the audio path when one was ever assigned. -/
def transcribeTask (env : Env) (cfg : WhisperConfig) (fmt : String) :
    TaskOutcome :=
  let run := downloadAudioR env
  match safeDownloadAudio env with
  | .error e =>
    { result := .error e
      events := [.progress "downloading" 10]
      createdDirs := run.dirs
      removedDirs := [] }
  | .ok audioPath =>
    let cleanup := [pyDirname audioPath]
    let ev1 := [Event.progress "downloading" 10, Event.progress "transcribing" 50]
    let outBase := pySplitextRoot audioPath
    let cmd := buildWhisperCmd cfg audioPath outBase fmt
    if env.whisperExit = false then
      { result := .error .whisperFailed
        events := ev1
        createdDirs := run.dirs
        removedDirs := cleanup }
    else
      let ev2 := ev1 ++ [Event.progress "finalizing" 90]
      let ext := if fmt = "plain" then "txt" else "srt"
      let tpath := outBase ++ "." ++ ext
      if tpath ∈ env.whisperOutputs cmd outBase then
        let t := pyStrip env.transcriptContent
        { result := .ok (if t = "" then "No speech detected." else t)
          events := ev2
          createdDirs := run.dirs
          removedDirs := cleanup }
      else
        { result := .error (.transcriptMissing tpath)
          events := ev2
          createdDirs := run.dirs
          removedDirs := cleanup }

/-- The task states the `/result` endpoint of `src/main.py` distinguishes. -/
inductive CeleryState
  | pending
  | progressing (step : String) (p : Nat)
  | success (transcript : String)
  | failure (error : String)
deriving DecidableEq

/-- The response body of `get_result` for one state. -/
structure ResultView where
  status : String
  progress : Option Nat
  step : Option String
  transcript : Option String
  error : Option String
deriving DecidableEq

/-- `get_result` of `src/main.py` (lines 81-117): `PENDING` is reported as
`pending` at progress 0, `PROGRESS` passes the published meta through as
`processing`, `SUCCESS` is `completed` at progress 100, `FAILURE` is
`error` at progress 100. -/
def getResult : CeleryState → ResultView
  | .pending => ⟨"pending", some 0, some "queued", none, none⟩
  | .progressing s p => ⟨"processing", some p, some s, none, none⟩
  | .success t => ⟨"completed", some 100, some "done", some t, none⟩
  | .failure e => ⟨"error", some 100, some "failed", none, some e⟩

/-- `str(e)` for an exception escaping the task body, as stored by the
result backend. -/
def jobErrMsg : JobError → String
  | .downloadFailed m _ => m
  | .whisperFailed => "whisper-cli exited with a non-zero status"
  | .transcriptMissing p => "Transcript file not found at " ++ p

/-- The backend states one job passes through, in order: `PENDING` before
the worker picks it up, each published `PROGRESS` meta, then the terminal
`SUCCESS` or `FAILURE` state. -/
def lifecycleStates (o : TaskOutcome) : List CeleryState :=
  CeleryState.pending ::
    (o.events.map (fun e => match e with | .progress s p => CeleryState.progressing s p)
      ++ [match o.result with
          | .ok t => CeleryState.success t
          | .error e => CeleryState.failure (jobErrMsg e)])

/-- The progress values a poller of `get_result` observes over the job's
lifecycle, in order. -/
def observedProgress (o : TaskOutcome) : List Nat :=
  (lifecycleStates o).map (fun s => ((getResult s).progress).getD 0)

/-- Environment of one `refresh_cookies` call: whether browser cookies are
enabled, the instant at which the `cookie_refresh_lock` held by a
concurrent process becomes free, and how long the export command runs. -/
structure RefreshEnv where
  useBrowserCookies : Bool
  lockFreeAt : Nat
  exportDuration : Nat

/-- What one `refresh_cookies` call did. -/
structure RefreshOutcome where
  invokedExport : Bool
  returnedAt : Nat
deriving DecidableEq

/-- `refresh_cookies` (lines 64-85) under the semantics of
`redis_client.lock(COOKIE_LOCK, timeout=60)`: redis-py's `Lock` defaults to
`blocking=True` with `blocking_timeout=None`, so entering the context
manager waits until the lock can be acquired (it does not raise `LockError`
on contention). A caller that starts while another process holds the lock
therefore acquires it at `max callAt lockFreeAt`, then invokes the yt-dlp
cookie-export command itself and returns when it finishes; with
`USE_BROWSER_COOKIES` false the call returns at once without running
anything. -/
def refreshCookies (env : RefreshEnv) (callAt : Nat) : RefreshOutcome :=
  if env.useBrowserCookies = false then ⟨false, callAt⟩
  else
    let acq := max callAt env.lockFreeAt
    ⟨true, acq + env.exportDuration⟩

/-- The reference configuration built from the default environment values
(`WHISPER_CONFIG` with no overriding environment variables; threads fixed
at 4 for concreteness). -/
def cfgDefault : WhisperConfig :=
  ⟨"/app/whisper.cpp/models/ggml-tiny.en-q8_0.bin", 4, "whisper-cli", "",
    false, false, "0", "0", "", ""⟩

/-- A configuration exercising both omitted and present options. -/
def cfgC6 : WhisperConfig :=
  ⟨"", 4, "whisper-cli", "en", false, true, "0", "60", "", "5"⟩

/-- An environment in which every download attempt raises in the engine. -/
def envAllFail : Env :=
  ⟨fun i => .engineRaises ("network error " ++ toString i), true,
    specWhisperOutputs, ""⟩

/-- An environment in which every download attempt succeeds and the
transcript file content is whitespace only. -/
def envWS : Env :=
  ⟨fun _ => .ok "video1", true, specWhisperOutputs, " \n\t"⟩

/-- An environment in which every download attempt succeeds and the
transcript reads `hello world`. -/
def envHello : Env :=
  ⟨fun _ => .ok "video1", true, specWhisperOutputs, "hello world"⟩

/-- An environment whose first attempt finds no WAV file and whose second
attempt succeeds. -/
def envMissOk : Env :=
  ⟨fun i => if i = 0 then .fileMissing else .ok "vid", true,
    specWhisperOutputs, "hi"⟩

/-! Lemmas about the shell field splitter and `shlexQuote`. -/

lemma safe_not_special {c : Char} (h : isSafeChar c = true) :
    isIFS c = false ∧ c ≠ '\'' ∧ c ≠ '"' := by
  refine ⟨?_, ?_, ?_⟩
  · cases hif : isIFS c
    · rfl
    · exfalso
      simp only [isIFS, Bool.or_eq_true, beq_iff_eq] at hif
      rcases hif with (rfl | rfl) | rfl <;> exact absurd h (by decide)
  · rintro rfl; exact absurd h (by decide)
  · rintro rfl; exact absurd h (by decide)

lemma step_norm_other {c : Char} (h1 : isIFS c = false) (h2 : c ≠ '\'')
    (h3 : c ≠ '"') (cs cur st) :
    shellSplitAux (c :: cs) .norm cur st = shellSplitAux cs .norm (cur ++ [c]) true := by
  simp [shellSplitAux, h1, h2, h3]

lemma step_norm_space (cs cur) :
    shellSplitAux (' ' :: cs) .norm cur true = cur :: shellSplitAux cs .norm [] false := by
  have h : isIFS ' ' = true := by decide
  simp [shellSplitAux, h]

lemma step_norm_sq (cs cur st) :
    shellSplitAux ('\'' :: cs) .norm cur st = shellSplitAux cs .insingle cur true := by
  have h : isIFS '\'' = false := by decide
  simp [shellSplitAux, h]

lemma step_norm_dq (cs cur st) :
    shellSplitAux ('"' :: cs) .norm cur st = shellSplitAux cs .indouble cur true := by
  have h : isIFS '"' = false := by decide
  have h2 : ('"' : Char) ≠ '\'' := by decide
  simp [shellSplitAux, h, h2]

lemma step_single_sq (cs cur st) :
    shellSplitAux ('\'' :: cs) .insingle cur st = shellSplitAux cs .norm cur st := by
  simp [shellSplitAux]

lemma step_single_other {c : Char} (h : c ≠ '\'') (cs cur st) :
    shellSplitAux (c :: cs) .insingle cur st
      = shellSplitAux cs .insingle (cur ++ [c]) st := by
  simp [shellSplitAux, h]

lemma step_double_dq (cs cur st) :
    shellSplitAux ('"' :: cs) .indouble cur st = shellSplitAux cs .norm cur st := by
  simp [shellSplitAux]

lemma step_double_other {c : Char} (h : c ≠ '"') (cs cur st) :
    shellSplitAux (c :: cs) .indouble cur st
      = shellSplitAux cs .indouble (cur ++ [c]) st := by
  simp [shellSplitAux, h]

lemma shellSplitAux_safe (l : List Char) (hl : l.all isSafeChar = true) :
    ∀ rest cur st, shellSplitAux (l ++ rest) .norm cur st
      = shellSplitAux rest .norm (cur ++ l) (st || !l.isEmpty) := by
  induction l with
  | nil => intro rest cur st; simp
  | cons c cs ih =>
    intro rest cur st
    simp only [List.all_cons, Bool.and_eq_true] at hl
    obtain ⟨h1, h2, h3⟩ := safe_not_special hl.1
    rw [List.cons_append, step_norm_other h1 h2 h3, ih hl.2]
    simp [List.append_assoc, Bool.or_true]

lemma shellSplitAux_quoteBody (l : List Char) :
    ∀ rest cur, shellSplitAux (quoteBody l ++ '\'' :: rest) .insingle cur true
      = shellSplitAux rest .norm (cur ++ l) true := by
  induction l with
  | nil => intro rest cur; simp [quoteBody, step_single_sq]
  | cons c cs ih =>
    intro rest cur
    by_cases hc : c = '\''
    · subst hc
      have hq : ('"' : Char) ≠ '\'' := by decide
      have hq' : ('\'' : Char) ≠ '"' := by decide
      simp only [quoteBody, eq_self_iff_true, if_true, List.cons_append,
        List.append_assoc, List.nil_append]
      rw [step_single_sq, step_norm_dq, step_double_other hq', step_double_dq,
        step_norm_sq, ih]
      simp [List.append_assoc]
    · simp only [quoteBody, if_neg hc, List.cons_append, List.singleton_append,
        List.nil_append]
      rw [step_single_other hc, ih]
      simp [List.append_assoc]

lemma data_mk (l : List Char) : (String.mk l).data = l := rfl

lemma shellSplitAux_quote (s : String) (rest : List Char) (cur : List Char)
    (st : Bool) :
    shellSplitAux ((shlexQuote s).data ++ rest) .norm cur st
      = shellSplitAux rest .norm (cur ++ s.data) true := by
  by_cases h0 : s.data.isEmpty
  · have hnil : s.data = [] := by simpa using h0
    simp only [shlexQuote, h0, if_true]
    rw [List.cons_append, List.cons_append, List.nil_append, step_norm_sq,
      step_single_sq, hnil, List.append_nil]
  · by_cases h1 : s.data.all isSafeChar
    · simp only [shlexQuote, h0, Bool.false_eq_true, if_false, h1, if_true]
      rw [shellSplitAux_safe s.data h1]
      have : s.data.isEmpty = false := by simpa using h0
      simp [this]
    · simp only [shlexQuote, h0, Bool.false_eq_true, if_false, h1, if_true, data_mk]
      simp only [List.cons_append, List.append_assoc]
      rw [step_norm_sq]
      exact shellSplitAux_quoteBody s.data rest cur

lemma data_append (s t : String) : (s ++ t).data = s.data ++ t.data := by
  cases s; cases t; rfl

lemma shellFields_join (a : String) (args : List String) :
    shellFields (joinSpace ((a :: args).map shlexQuote)) = (a :: args).map String.data := by
  induction args generalizing a with
  | nil =>
    simp only [List.map_cons, List.map_nil, joinSpace, shellFields]
    rw [show (shlexQuote a).data = (shlexQuote a).data ++ [] from (List.append_nil _).symm,
      shellSplitAux_quote]
    simp [shellSplitAux]
  | cons b t ih =>
    simp only [List.map_cons, joinSpace, shellFields] at ih ⊢
    rw [data_append, data_append,
      show (" " : String).data = [' '] from rfl, List.append_assoc,
      List.singleton_append, shellSplitAux_quote, List.nil_append,
      step_norm_space, ih b]

lemma optEntry_map (k : String) (hk : shlexQuote k = k) (ov : Option String) :
    (optEntry id k ov).map shlexQuote = optEntry shlexQuote k ov := by
  cases ov with
  | none => rfl
  | some v =>
    simp only [optEntry, id]
    split
    · simp [hk]
    · rfl

lemma map_shlexQuote_raw (cfg : WhisperConfig) (a o f : String) :
    (rawWhisperArgs cfg a o f).map shlexQuote = buildWhisperCmd cfg a o f := by
  have h1 : shlexQuote "--model" = "--model" := by decide
  have h2 : shlexQuote "--threads" = "--threads" := by decide
  have h3 : shlexQuote "--output-file" = "--output-file" := by decide
  have h4 : shlexQuote "--language" = "--language" := by decide
  have h5 : shlexQuote "--max-context" = "--max-context" := by decide
  have h6 : shlexQuote "--max-len" = "--max-len" := by decide
  have h7 : shlexQuote "--best-of" = "--best-of" := by decide
  have h8 : shlexQuote "--beam-size" = "--beam-size" := by decide
  have hx : shlexQuote "--output-txt" = "--output-txt" := by decide
  have hn : shlexQuote "--no-timestamps" = "--no-timestamps" := by decide
  have hs : shlexQuote "--output-srt" = "--output-srt" := by decide
  have ht : shlexQuote "--translate" = "--translate" := by decide
  have hw : shlexQuote "--split-on-word" = "--split-on-word" := by decide
  unfold rawWhisperArgs buildWhisperCmd whisperCmdWith
  simp only [List.map_append, List.map_cons, List.map_nil, id,
    optEntry_map _ h1, optEntry_map _ h2, optEntry_map _ h3, optEntry_map _ h4,
    optEntry_map _ h5, optEntry_map _ h6, optEntry_map _ h7, optEntry_map _ h8,
    apply_ite (List.map shlexQuote), hx, hn, hs, ht, hw]

/-- C3: for every input tuple (configuration, audio path, output base path,
format), every value in the built transcription command is individually
shell-escaped with `shlex.quote` (the command equals the raw argument
vector mapped through `shlexQuote`), and the `" ".join(cmd)` string that
`transcribe_task` hands to the shell (`shell=True`) field-splits back to
exactly the intended raw argument vector — so no untrusted data reaches
the shell unescaped, and no raw concatenation of untrusted data is
interpreted by it. -/
theorem c3_shell_escaping (cfg : WhisperConfig) (audio_path out_base_path fmt : String) :
    buildWhisperCmd cfg audio_path out_base_path fmt
        = (rawWhisperArgs cfg audio_path out_base_path fmt).map shlexQuote
      ∧ shellFields (joinSpace (buildWhisperCmd cfg audio_path out_base_path fmt))
        = (rawWhisperArgs cfg audio_path out_base_path fmt).map String.data := by
  refine ⟨(map_shlexQuote_raw cfg audio_path out_base_path fmt).symm, ?_⟩
  obtain ⟨t, ht⟩ : ∃ t, rawWhisperArgs cfg audio_path out_base_path fmt
      = cfg.cli_path :: t := ⟨_, rfl⟩
  rw [← map_shlexQuote_raw, ht]
  exact shellFields_join cfg.cli_path t

/-! Membership lemmas for the built command. -/

lemma shlexQuote_head (v : String) :
    shlexQuote v = v ∨ (shlexQuote v).data.head? = some '\'' := by
  unfold shlexQuote
  split
  · right; decide
  · split
    · left; rfl
    · right; rfl

lemma shlexQuote_ne {v m : String} (hm : m.data.head? ≠ some '\'') (hvm : v ≠ m) :
    shlexQuote v ≠ m := by
  intro h
  rcases shlexQuote_head v with h1 | h1
  · exact hvm (by rw [← h1, h])
  · exact hm (h ▸ h1)

lemma not_mem_optEntry_of (x k v : String)
    (h : v ≠ "0" → v ≠ "" → x ≠ k ∧ x ≠ shlexQuote v) :
    x ∉ optEntry shlexQuote k (some v) := by
  simp only [optEntry]
  split
  · rename_i hc
    obtain ⟨hk, hv⟩ := h hc.1 hc.2
    simp [hk, hv]
  · simp

lemma not_mem_optEntry_strOrNone_of (x k s : String)
    (h : s ≠ "0" → s ≠ "" → x ≠ k ∧ x ≠ shlexQuote s) :
    x ∉ optEntry shlexQuote k (strOrNone s) := by
  unfold strOrNone
  split
  · simp [optEntry]
  · exact not_mem_optEntry_of x k s h

lemma not_mem_buildCmd (cfg : WhisperConfig) (a o f x : String)
    (hcli : x ≠ shlexQuote cfg.cli_path)
    (hflags : ∀ kv ∈ optionTable cfg o, kv.2 ≠ "0" → kv.2 ≠ "" →
      x ≠ kv.1 ∧ x ≠ shlexQuote kv.2)
    (hfmt : x ∉ (if f = "plain" then ["--output-txt", "--no-timestamps"]
      else if f = "timestamps" then ["--output-srt"] else ([] : List String)))
    (htr : cfg.translate = true → x ≠ "--translate")
    (hsw : cfg.split_on_word = true → x ≠ "--split-on-word")
    (haud : x ≠ shlexQuote a) :
    x ∉ buildWhisperCmd cfg a o f := by
  intro hmem
  simp only [buildWhisperCmd, whisperCmdWith, List.mem_append,
    List.mem_singleton] at hmem
  rcases hmem with ((((((((((((h | h) | h) | h) | h) | h) | h) | h) | h) | h) | h) | h) | h)
  · exact hcli h
  · exact not_mem_optEntry_of x "--model" cfg.model_path
      (hflags ("--model", cfg.model_path) (by simp [optionTable])) h
  · exact not_mem_optEntry_of x "--threads" (toString cfg.threads)
      (hflags ("--threads", toString cfg.threads) (by simp [optionTable])) h
  · exact not_mem_optEntry_of x "--output-file" o
      (hflags ("--output-file", o) (by simp [optionTable])) h
  · exact not_mem_optEntry_strOrNone_of x "--language" cfg.language
      (hflags ("--language", cfg.language) (by simp [optionTable])) h
  · exact not_mem_optEntry_strOrNone_of x "--max-context" cfg.max_context
      (hflags ("--max-context", cfg.max_context) (by simp [optionTable])) h
  · exact not_mem_optEntry_strOrNone_of x "--max-len" cfg.max_len
      (hflags ("--max-len", cfg.max_len) (by simp [optionTable])) h
  · exact not_mem_optEntry_strOrNone_of x "--best-of" cfg.best_of
      (hflags ("--best-of", cfg.best_of) (by simp [optionTable])) h
  · exact not_mem_optEntry_strOrNone_of x "--beam-size" cfg.beam_size
      (hflags ("--beam-size", cfg.beam_size) (by simp [optionTable])) h
  · exact hfmt h
  · revert h
    cases htb : cfg.translate
    · simp
    · intro h
      simp at h
      exact htr htb h
  · revert h
    cases hsb : cfg.split_on_word
    · simp
    · intro h
      simp at h
      exact hsw hsb h
  · exact haud h

lemma mem_cmd_of_fmtPart {x : String} (cfg : WhisperConfig) (a o f : String)
    (hx : x ∈ (if f = "plain" then ["--output-txt", "--no-timestamps"]
      else if f = "timestamps" then ["--output-srt"] else ([] : List String))) :
    x ∈ buildWhisperCmd cfg a o f := by
  unfold buildWhisperCmd whisperCmdWith
  exact List.mem_append_left _ (List.mem_append_left _ (List.mem_append_left _
    (List.mem_append_right _ hx)))

lemma mem_cmd_translate (cfg : WhisperConfig) (a o f : String)
    (ht : cfg.translate = true) :
    "--translate" ∈ buildWhisperCmd cfg a o f := by
  unfold buildWhisperCmd whisperCmdWith
  refine List.mem_append_left _ (List.mem_append_left _ (List.mem_append_right _ ?_))
  rw [ht]
  simp

lemma mem_cmd_split (cfg : WhisperConfig) (a o f : String)
    (hs : cfg.split_on_word = true) :
    "--split-on-word" ∈ buildWhisperCmd cfg a o f := by
  unfold buildWhisperCmd whisperCmdWith
  refine List.mem_append_left _ (List.mem_append_right _ ?_)
  rw [hs]
  simp

lemma optionTable_fst_mem (cfg : WhisperConfig) (o : String) :
    ∀ kv ∈ optionTable cfg o, kv.1 ∈ optionFlags := by
  intro kv hkv
  simp only [optionTable, List.mem_cons, List.not_mem_nil, or_false] at hkv
  rcases hkv with rfl | rfl | rfl | rfl | rfl | rfl | rfl | rfl <;> simp [optionFlags]

lemma optionTable_snd_mem (cfg : WhisperConfig) (a o : String) :
    ∀ kv ∈ optionTable cfg o, kv.2 ∈ inputValues cfg a o := by
  intro kv hkv
  simp only [optionTable, List.mem_cons, List.not_mem_nil, or_false] at hkv
  rcases hkv with rfl | rfl | rfl | rfl | rfl | rfl | rfl | rfl <;> simp [inputValues]

lemma marker_notin_cmd (cfg : WhisperConfig) (a o f m : String)
    (hm : m ∈ fmtMarkers)
    (hfresh : ∀ v ∈ inputValues cfg a o, v ∉ fmtMarkers)
    (hfmt : m ∉ (if f = "plain" then ["--output-txt", "--no-timestamps"]
      else if f = "timestamps" then ["--output-srt"] else ([] : List String))) :
    m ∉ buildWhisperCmd cfg a o f := by
  have hhead : m.data.head? ≠ some '\'' :=
    (by decide : ∀ m' ∈ fmtMarkers, m'.data.head? ≠ some '\'') m hm
  have hflagne : ∀ k ∈ optionFlags, m ≠ k :=
    (by decide : ∀ m' ∈ fmtMarkers, ∀ k ∈ optionFlags, m' ≠ k) m hm
  have hval : ∀ v ∈ inputValues cfg a o, m ≠ shlexQuote v := by
    intro v hv
    exact (shlexQuote_ne hhead (fun he => hfresh v hv (by rw [he]; exact hm))).symm
  exact not_mem_buildCmd cfg a o f m
    (hval cfg.cli_path (by simp [inputValues]))
    (fun kv hkv _ _ => ⟨hflagne kv.1 (optionTable_fst_mem cfg o kv hkv),
      hval kv.2 (optionTable_snd_mem cfg a o kv hkv)⟩)
    hfmt
    (fun _ => (by decide : ∀ m' ∈ fmtMarkers, m' ≠ "--translate") m hm)
    (fun _ => (by decide : ∀ m' ∈ fmtMarkers, m' ≠ "--split-on-word") m hm)
    (hval a (by simp [inputValues]))

lemma not_mem_fmtPart {x f : String}
    (h1 : x ∉ (["--output-txt", "--no-timestamps"] : List String))
    (h2 : x ∉ (["--output-srt"] : List String)) :
    x ∉ (if f = "plain" then ["--output-txt", "--no-timestamps"]
      else if f = "timestamps" then ["--output-srt"] else ([] : List String)) := by
  split
  · exact h1
  · split
    · exact h2
    · simp

lemma optionTable_fst_inj (cfg : WhisperConfig) (o : String) :
    ∀ kv ∈ optionTable cfg o, ∀ kv' ∈ optionTable cfg o,
      kv.1 = kv'.1 → kv.2 = kv'.2 := by
  intro kv hkv kv' hkv'
  simp only [optionTable, List.mem_cons, List.not_mem_nil, or_false] at hkv hkv'
  rcases hkv with rfl | rfl | rfl | rfl | rfl | rfl | rfl | rfl <;>
    rcases hkv' with rfl | rfl | rfl | rfl | rfl | rfl | rfl | rfl <;>
    intro h <;> simp_all

lemma infix_extend_left {α : Type} {x L : List α} (A : List α)
    (h : ∃ p s, L = p ++ x ++ s) : ∃ p s, A ++ L = p ++ x ++ s := by
  obtain ⟨p, s, rfl⟩ := h
  exact ⟨A ++ p, s, by simp [List.append_assoc]⟩

lemma infix_extend_right {α : Type} {x L : List α} (B : List α)
    (h : ∃ p s, L = p ++ x ++ s) : ∃ p s, L ++ B = p ++ x ++ s := by
  obtain ⟨p, s, rfl⟩ := h
  exact ⟨p, s ++ B, by simp [List.append_assoc]⟩

lemma ne_quote_of_notin {x v : String} {vals : List String}
    (hhead : x.data.head? ≠ some '\'') (hv : v ∈ vals) (hnotin : x ∉ vals) :
    x ≠ shlexQuote v :=
  (shlexQuote_ne hhead (fun he => hnotin (by rw [← he]; exact hv))).symm

/-- C6: for every configuration, each option of the option dict is omitted
entirely from the built command when its configured value is `""` or `"0"`
(provided no other configured value coincides with the flag string), and
appears paired with its flag (as the adjacent pair `flag, quoted value`)
when the value is non-empty and not `"0"`; the boolean flags `--translate`
and `--split-on-word` appear if and only if their configuration booleans
are true (again barring a configured value equal to the flag string). -/
theorem c6_option_omission (cfg : WhisperConfig) (audio_path out_base_path fmt : String) :
    (∀ kv ∈ optionTable cfg out_base_path,
      ((kv.2 = "" ∨ kv.2 = "0") →
        kv.1 ∉ inputValues cfg audio_path out_base_path →
        kv.1 ∉ buildWhisperCmd cfg audio_path out_base_path fmt)
      ∧ (kv.2 ≠ "" → kv.2 ≠ "0" →
        ∃ pre suf, buildWhisperCmd cfg audio_path out_base_path fmt
          = pre ++ [kv.1, shlexQuote kv.2] ++ suf))
    ∧ ("--translate" ∉ inputValues cfg audio_path out_base_path →
      ("--translate" ∈ buildWhisperCmd cfg audio_path out_base_path fmt
        ↔ cfg.translate = true))
    ∧ ("--split-on-word" ∉ inputValues cfg audio_path out_base_path →
      ("--split-on-word" ∈ buildWhisperCmd cfg audio_path out_base_path fmt
        ↔ cfg.split_on_word = true)) := by
  refine ⟨?_, ?_, ?_⟩
  · intro kv hkv
    constructor
    · intro homit hnotin
      have hflagmem := optionTable_fst_mem cfg out_base_path kv hkv
      have hhead : kv.1.data.head? ≠ some '\'' :=
        (by decide : ∀ k ∈ optionFlags, k.data.head? ≠ some '\'') kv.1 hflagmem
      refine not_mem_buildCmd cfg audio_path out_base_path fmt kv.1 ?_ ?_ ?_ ?_ ?_ ?_
      · exact (shlexQuote_ne hhead
          (fun he => hnotin (by rw [← he]; simp [inputValues]))).symm
      · intro kv' hkv' h0 hne
        constructor
        · intro he
          have h2 := optionTable_fst_inj cfg out_base_path kv hkv kv' hkv' he
          rcases homit with h | h
          · exact hne (by rw [← h2, h])
          · exact h0 (by rw [← h2, h])
        · exact ne_quote_of_notin hhead
            (optionTable_snd_mem cfg audio_path out_base_path kv' hkv') hnotin
      · exact not_mem_fmtPart
          ((by decide : ∀ k ∈ optionFlags,
            k ∉ (["--output-txt", "--no-timestamps"] : List String)) kv.1 hflagmem)
          ((by decide : ∀ k ∈ optionFlags,
            k ∉ (["--output-srt"] : List String)) kv.1 hflagmem)
      · exact fun _ =>
          (by decide : ∀ k ∈ optionFlags, k ≠ "--translate") kv.1 hflagmem
      · exact fun _ =>
          (by decide : ∀ k ∈ optionFlags, k ≠ "--split-on-word") kv.1 hflagmem
      · exact (shlexQuote_ne hhead
          (fun he => hnotin (by rw [← he]; simp [inputValues]))).symm
    · intro hneE hne0
      simp only [optionTable, List.mem_cons, List.not_mem_nil, or_false] at hkv
      rcases hkv with rfl | rfl | rfl | rfl | rfl | rfl | rfl | rfl
      · unfold buildWhisperCmd whisperCmdWith
        iterate 11 apply infix_extend_right
        apply infix_extend_left
        exact ⟨[], [], by simp [optEntry, hneE, hne0]⟩
      · unfold buildWhisperCmd whisperCmdWith
        iterate 10 apply infix_extend_right
        apply infix_extend_left
        exact ⟨[], [], by simp [optEntry, hneE, hne0]⟩
      · unfold buildWhisperCmd whisperCmdWith
        iterate 9 apply infix_extend_right
        apply infix_extend_left
        exact ⟨[], [], by simp [optEntry, hneE, hne0]⟩
      · unfold buildWhisperCmd whisperCmdWith
        iterate 8 apply infix_extend_right
        apply infix_extend_left
        exact ⟨[], [], by simp [optEntry, strOrNone, hneE, hne0]⟩
      · unfold buildWhisperCmd whisperCmdWith
        iterate 7 apply infix_extend_right
        apply infix_extend_left
        exact ⟨[], [], by simp [optEntry, strOrNone, hneE, hne0]⟩
      · unfold buildWhisperCmd whisperCmdWith
        iterate 6 apply infix_extend_right
        apply infix_extend_left
        exact ⟨[], [], by simp [optEntry, strOrNone, hneE, hne0]⟩
      · unfold buildWhisperCmd whisperCmdWith
        iterate 5 apply infix_extend_right
        apply infix_extend_left
        exact ⟨[], [], by simp [optEntry, strOrNone, hneE, hne0]⟩
      · unfold buildWhisperCmd whisperCmdWith
        iterate 4 apply infix_extend_right
        apply infix_extend_left
        exact ⟨[], [], by simp [optEntry, strOrNone, hneE, hne0]⟩
  · intro hnotin
    constructor
    · intro hmem
      by_contra hfalse
      have htrf : cfg.translate = false := by
        cases h : cfg.translate
        · rfl
        · exact absurd h hfalse
      refine absurd hmem
        (not_mem_buildCmd cfg audio_path out_base_path fmt "--translate" ?_ ?_ ?_ ?_ ?_ ?_)
      · exact (shlexQuote_ne (by decide)
          (fun he => hnotin (by rw [← he]; simp [inputValues]))).symm
      · intro kv' hkv' h0 hne
        refine ⟨(by decide : ∀ k ∈ optionFlags, "--translate" ≠ k) kv'.1
          (optionTable_fst_mem cfg out_base_path kv' hkv'), ?_⟩
        exact ne_quote_of_notin (by decide)
          (optionTable_snd_mem cfg audio_path out_base_path kv' hkv') hnotin
      · exact not_mem_fmtPart (by decide) (by decide)
      · intro h
        rw [htrf] at h
        cases h
      · exact fun _ => by decide
      · exact (shlexQuote_ne (by decide)
          (fun he => hnotin (by rw [← he]; simp [inputValues]))).symm
    · exact fun h => mem_cmd_translate cfg audio_path out_base_path fmt h
  · intro hnotin
    constructor
    · intro hmem
      by_contra hfalse
      have hswf : cfg.split_on_word = false := by
        cases h : cfg.split_on_word
        · rfl
        · exact absurd h hfalse
      refine absurd hmem
        (not_mem_buildCmd cfg audio_path out_base_path fmt "--split-on-word" ?_ ?_ ?_ ?_ ?_ ?_)
      · exact (shlexQuote_ne (by decide)
          (fun he => hnotin (by rw [← he]; simp [inputValues]))).symm
      · intro kv' hkv' h0 hne
        refine ⟨(by decide : ∀ k ∈ optionFlags, "--split-on-word" ≠ k) kv'.1
          (optionTable_fst_mem cfg out_base_path kv' hkv'), ?_⟩
        exact ne_quote_of_notin (by decide)
          (optionTable_snd_mem cfg audio_path out_base_path kv' hkv') hnotin
      · exact not_mem_fmtPart (by decide) (by decide)
      · exact fun _ => by decide
      · intro h
        rw [hswf] at h
        cases h
      · exact (shlexQuote_ne (by decide)
          (fun he => hnotin (by rw [← he]; simp [inputValues]))).symm
    · exact fun h => mem_cmd_split cfg audio_path out_base_path fmt h

/-- C7: the output-format selection of the built command has exactly two
mutually exclusive branches: format `"plain"` yields a command containing
`--output-txt` and `--no-timestamps` and no `--output-srt`, and format
`"timestamps"` yields a command containing `--output-srt` and neither text
marker; for these two formats exactly one of the two output file kinds is
requested (provided no configured value coincides with a marker string). -/
theorem c7_format_branches (cfg : WhisperConfig) (audio_path out_base_path fmt : String)
    (hfresh : ∀ v ∈ inputValues cfg audio_path out_base_path, v ∉ fmtMarkers) :
    (fmt = "plain" →
      "--output-txt" ∈ buildWhisperCmd cfg audio_path out_base_path fmt
      ∧ "--no-timestamps" ∈ buildWhisperCmd cfg audio_path out_base_path fmt
      ∧ "--output-srt" ∉ buildWhisperCmd cfg audio_path out_base_path fmt)
    ∧ (fmt = "timestamps" →
      "--output-srt" ∈ buildWhisperCmd cfg audio_path out_base_path fmt
      ∧ "--output-txt" ∉ buildWhisperCmd cfg audio_path out_base_path fmt
      ∧ "--no-timestamps" ∉ buildWhisperCmd cfg audio_path out_base_path fmt)
    ∧ ((fmt = "plain" ∨ fmt = "timestamps") →
      ("--output-txt" ∈ buildWhisperCmd cfg audio_path out_base_path fmt
          ∧ "--output-srt" ∉ buildWhisperCmd cfg audio_path out_base_path fmt)
        ∨ ("--output-srt" ∈ buildWhisperCmd cfg audio_path out_base_path fmt
          ∧ "--output-txt" ∉ buildWhisperCmd cfg audio_path out_base_path fmt)) := by
  have hplain : fmt = "plain" →
      "--output-txt" ∈ buildWhisperCmd cfg audio_path out_base_path fmt
      ∧ "--no-timestamps" ∈ buildWhisperCmd cfg audio_path out_base_path fmt
      ∧ "--output-srt" ∉ buildWhisperCmd cfg audio_path out_base_path fmt := by
    rintro rfl
    exact ⟨mem_cmd_of_fmtPart cfg _ _ _ (by decide),
      mem_cmd_of_fmtPart cfg _ _ _ (by decide),
      marker_notin_cmd cfg _ _ _ _ (by decide) hfresh (by decide)⟩
  have hts : fmt = "timestamps" →
      "--output-srt" ∈ buildWhisperCmd cfg audio_path out_base_path fmt
      ∧ "--output-txt" ∉ buildWhisperCmd cfg audio_path out_base_path fmt
      ∧ "--no-timestamps" ∉ buildWhisperCmd cfg audio_path out_base_path fmt := by
    rintro rfl
    exact ⟨mem_cmd_of_fmtPart cfg _ _ _ (by decide),
      marker_notin_cmd cfg _ _ _ _ (by decide) hfresh (by decide),
      marker_notin_cmd cfg _ _ _ _ (by decide) hfresh (by decide)⟩
  refine ⟨hplain, hts, ?_⟩
  rintro (h | h)
  · exact Or.inl ⟨(hplain h).1, (hplain h).2.2⟩
  · exact Or.inr ⟨(hts h).1, (hts h).2.1⟩

lemma markers_absent (cfg : WhisperConfig) (a o f : String)
    (hfresh : ∀ v ∈ inputValues cfg a o, v ∉ fmtMarkers)
    (hp : f ≠ "plain") (ht : f ≠ "timestamps") :
    ∀ m ∈ fmtMarkers, m ∉ buildWhisperCmd cfg a o f := fun m hm =>
  marker_notin_cmd cfg a o f m hm hfresh (by rw [if_neg hp, if_neg ht]; simp)

/-! Lemmas about the retry-wrapped downloader and the task. -/

lemma attemptRun_snd (env : Env) (i : Nat) : (attemptRun env i).2 = tmpDirName i := by
  unfold attemptRun
  cases env.attempts i <;> rfl

lemma downloadAudioR_cases (env : Env) :
    (∃ p, (attemptRun env 0).1 = .ok p
      ∧ downloadAudioR env = ⟨.ok p, [tmpDirName 0], []⟩)
    ∨ (∃ e0 p, (attemptRun env 0).1 = .error e0 ∧ (attemptRun env 1).1 = .ok p
      ∧ downloadAudioR env = ⟨.ok p, [tmpDirName 0, tmpDirName 1], [2]⟩)
    ∨ (∃ e0 e1 p, (attemptRun env 0).1 = .error e0 ∧ (attemptRun env 1).1 = .error e1
      ∧ (attemptRun env 2).1 = .ok p
      ∧ downloadAudioR env
        = ⟨.ok p, [tmpDirName 0, tmpDirName 1, tmpDirName 2], [2, 2]⟩)
    ∨ (∃ e0 e1 e2, (attemptRun env 0).1 = .error e0 ∧ (attemptRun env 1).1 = .error e1
      ∧ (attemptRun env 2).1 = .error e2
      ∧ downloadAudioR env
        = ⟨.retryError e2, [tmpDirName 0, tmpDirName 1, tmpDirName 2], [2, 2]⟩) := by
  cases h0 : (attemptRun env 0).1 with
  | ok p =>
    exact Or.inl ⟨p, rfl, by simp [downloadAudioR, retryGo, h0, attemptRun_snd]⟩
  | error e0 =>
    cases h1 : (attemptRun env 1).1 with
    | ok p =>
      exact Or.inr (Or.inl ⟨e0, p, rfl, rfl,
        by simp [downloadAudioR, retryGo, h0, h1, attemptRun_snd]⟩)
    | error e1 =>
      cases h2 : (attemptRun env 2).1 with
      | ok p =>
        exact Or.inr (Or.inr (Or.inl ⟨e0, e1, p, rfl, rfl, rfl,
          by simp [downloadAudioR, retryGo, h0, h1, h2, attemptRun_snd]⟩))
      | error e2 =>
        exact Or.inr (Or.inr (Or.inr ⟨e0, e1, e2, rfl, rfl, rfl,
          by simp [downloadAudioR, retryGo, h0, h1, h2, attemptRun_snd]⟩))

/-- C4: the retry-wrapped download makes at most 3 total attempts, every
backoff between attempts is the fixed 2 seconds, and when all three
attempts fail `safe_download_audio` surfaces exactly one generic failure —
not the library's retries-exhausted type, which it catches — whose message
embeds the last attempt's exception text and which carries that exception
as its cause. -/
theorem c4_retry_exhaustion (env : Env) :
    (downloadAudioR env).dirs.length ≤ 3
    ∧ (∀ w ∈ (downloadAudioR env).waits, w = 2)
    ∧ (∀ e0 e1 e2, (attemptRun env 0).1 = .error e0 →
        (attemptRun env 1).1 = .error e1 → (attemptRun env 2).1 = .error e2 →
        (downloadAudioR env).dirs.length = 3
        ∧ (downloadAudioR env).waits = [2, 2]
        ∧ safeDownloadAudio env
          = .error (.downloadFailed ("Download failed after retries: " ++ dlMsg e2) e2)) := by
  rcases downloadAudioR_cases env with ⟨p, h0, hr⟩ | ⟨e0, p, h0, h1, hr⟩ |
    ⟨e0, e1, p, h0, h1, h2, hr⟩ | ⟨e0, e1, e2, h0, h1, h2, hr⟩ <;> rw [hr]
  · refine ⟨by simp, by simp, ?_⟩
    intro f0 f1 f2 hf0 hf1 hf2
    rw [h0] at hf0
    cases hf0
  · refine ⟨by simp, by simp, ?_⟩
    intro f0 f1 f2 hf0 hf1 hf2
    rw [h1] at hf1
    cases hf1
  · refine ⟨by simp, by simp, ?_⟩
    intro f0 f1 f2 hf0 hf1 hf2
    rw [h2] at hf2
    cases hf2
  · refine ⟨by simp, by simp, ?_⟩
    intro f0 f1 f2 hf0 hf1 hf2
    rw [h2] at hf2
    injection hf2 with he
    subst he
    refine ⟨by simp, by simp, ?_⟩
    simp [safeDownloadAudio, hr]

/-- C4 witness: with all three attempts failing in the engine, three temp
directories witness three attempts, two fixed 2-second backoffs were slept,
and the surfaced failure is the generic one embedding the last attempt's
message and carrying it as cause. -/
theorem c4_retry_exhaustion_witness :
    (downloadAudioR envAllFail).dirs.length = 3
    ∧ (downloadAudioR envAllFail).waits = [2, 2]
    ∧ safeDownloadAudio envAllFail
      = .error (.downloadFailed "Download failed after retries: network error 2"
          (.engine "network error 2")) := by
  have h := (c4_retry_exhaustion envAllFail).2.2
    (.engine "network error 0") (.engine "network error 1") (.engine "network error 2")
    (by rfl) (by rfl) (by rfl)
  exact ⟨h.1, h.2.1, h.2.2⟩

/-- C5: a download attempt in which the engine raises no exception but the
expected WAV file is absent raises `FileNotFoundError` inside the retried
function, so it counts as an ordinary attempt failure; in particular a
first such attempt followed by a successful second attempt makes the
download succeed after one backoff rather than failing the job. -/
theorem c5_missing_wav_is_attempt_failure (env : Env) :
    (∀ i, env.attempts i = .fileMissing →
      (attemptRun env i).1 = .error .fileNotFound)
    ∧ (∀ stem, env.attempts 0 = .fileMissing → env.attempts 1 = .ok stem →
      (downloadAudioR env).outcome = .ok (tmpDirName 1 ++ "/" ++ stem ++ ".wav")
      ∧ (downloadAudioR env).waits = [2]) := by
  constructor
  · intro i h
    simp [attemptRun, h]
  · intro stem h0 h1
    constructor <;> simp [downloadAudioR, retryGo, attemptRun, h0, h1]

/-- C5 witness: in `envMissOk` the first attempt finds no WAV and is
retried, the second attempt succeeds, and the run succeeds after one
2-second backoff. -/
theorem c5_missing_wav_witness :
    (attemptRun envMissOk 0).1 = .error .fileNotFound
    ∧ (downloadAudioR envMissOk).outcome = .ok "/tmp/dl1/vid.wav"
    ∧ (downloadAudioR envMissOk).waits = [2] := by
  have h := c5_missing_wav_is_attempt_failure envMissOk
  have h2 := h.2 "vid" (by decide) (by decide)
  exact ⟨h.1 0 (by decide), h2.1, h2.2⟩

/-! Lemmas about `transcribe_task`. -/

lemma transcribeTask_dl_error (env : Env) (cfg : WhisperConfig) (fmt : String)
    (e : DlError) (h : (downloadAudioR env).outcome = .retryError e) :
    transcribeTask env cfg fmt
      = ⟨.error (.downloadFailed ("Download failed after retries: " ++ dlMsg e) e),
        [.progress "downloading" 10], (downloadAudioR env).dirs, []⟩ := by
  simp [transcribeTask, safeDownloadAudio, h]

lemma transcribeTask_ok_fields (env : Env) (cfg : WhisperConfig) (fmt : String)
    (p : String) (h : (downloadAudioR env).outcome = .ok p) :
    (transcribeTask env cfg fmt).removedDirs = [pyDirname p]
    ∧ (transcribeTask env cfg fmt).createdDirs = (downloadAudioR env).dirs := by
  unfold transcribeTask
  simp only [safeDownloadAudio, h]
  by_cases hw : env.whisperExit = false
  · rw [if_pos hw]
    exact ⟨rfl, rfl⟩
  · rw [if_neg hw]
    constructor
    · rw [apply_ite TaskOutcome.removedDirs]
      simp
    · rw [apply_ite TaskOutcome.createdDirs]
      simp

lemma transcribeTask_events_cases (env : Env) (cfg : WhisperConfig) (fmt : String) :
    (transcribeTask env cfg fmt).events = [.progress "downloading" 10]
    ∨ (transcribeTask env cfg fmt).events
      = [.progress "downloading" 10, .progress "transcribing" 50]
    ∨ (transcribeTask env cfg fmt).events
      = [.progress "downloading" 10, .progress "transcribing" 50,
        .progress "finalizing" 90] := by
  unfold transcribeTask
  cases hdl : (downloadAudioR env).outcome with
  | retryError e =>
    left
    simp [safeDownloadAudio, hdl]
  | ok p =>
    simp only [safeDownloadAudio, hdl]
    by_cases hw : env.whisperExit = false
    · right; left
      rw [if_pos hw]
    · right; right
      rw [if_neg hw, apply_ite TaskOutcome.events]
      simp

lemma transcribeTask_result_ok (env : Env) (cfg : WhisperConfig) (fmt r : String)
    (h : (transcribeTask env cfg fmt).result = .ok r) :
    r = (if pyStrip env.transcriptContent = "" then "No speech detected."
      else pyStrip env.transcriptContent) := by
  unfold transcribeTask at h
  cases hdl : (downloadAudioR env).outcome with
  | retryError e =>
    simp only [safeDownloadAudio, hdl] at h
    cases h
  | ok p =>
    simp only [safeDownloadAudio, hdl] at h
    by_cases hw : env.whisperExit = false
    · rw [if_pos hw] at h
      cases h
    · rw [if_neg hw, apply_ite TaskOutcome.result] at h
      split at h
      · split at h
        · exact (Except.ok.inj h).symm
        · cases h
      · split at h
        · exact (Except.ok.inj h).symm
        · cases h

/-- C1 (amended): on any terminal outcome, if the download produced an
audio path then the `finally` block removes exactly the directory
containing that path, once, regardless of where a later failure occurred;
if no audio path was ever produced, nothing is removed — even though each
failed download attempt did create a temp directory, all of which are
recorded in `createdDirs`. -/
theorem c1_cleanup_amended (env : Env) (cfg : WhisperConfig) (fmt : String) :
    (∀ p, (downloadAudioR env).outcome = .ok p →
      (transcribeTask env cfg fmt).removedDirs = [pyDirname p])
    ∧ (∀ e, (downloadAudioR env).outcome = .retryError e →
      (transcribeTask env cfg fmt).removedDirs = [])
    ∧ (transcribeTask env cfg fmt).createdDirs = (downloadAudioR env).dirs := by
  refine ⟨?_, ?_, ?_⟩
  · intro p h
    exact (transcribeTask_ok_fields env cfg fmt p h).1
  · intro e h
    rw [transcribeTask_dl_error env cfg fmt e h]
  · cases hdl : (downloadAudioR env).outcome with
    | ok p => exact (transcribeTask_ok_fields env cfg fmt p hdl).2
    | retryError e => rw [transcribeTask_dl_error env cfg fmt e hdl]

/-- C1 counterexample: a job whose three download attempts all fail
reaches the terminal Failed state with three created temp workspaces
(`/tmp/dl0` among them) and removes none of them — refuting the claim that
every TempWorkspace ever created for a job is removed by the time it
completes (and its corollary that such a job has nothing to clean up). -/
theorem c1_cleanup_counterexample :
    "/tmp/dl0" ∈ (transcribeTask envAllFail cfgDefault "plain").createdDirs
    ∧ (transcribeTask envAllFail cfgDefault "plain").removedDirs = []
    ∧ (transcribeTask envAllFail cfgDefault "plain").result
      = .error (.downloadFailed "Download failed after retries: network error 2"
          (.engine "network error 2")) := by
  refine ⟨by decide, by decide, by rfl⟩

/-- C1 witness: with a successful first download attempt, exactly the
recorded workspace `/tmp/dl0` is created and it is removed exactly once. -/
theorem c1_cleanup_amended_witness :
    (transcribeTask envHello cfgDefault "plain").removedDirs = ["/tmp/dl0"]
    ∧ (transcribeTask envHello cfgDefault "plain").createdDirs = ["/tmp/dl0"] := by
  have h := c1_cleanup_amended envHello cfgDefault "plain"
  have h1 := h.1 "/tmp/dl0/video1.wav" (by rfl)
  constructor
  · rw [h1]
    decide
  · rw [h.2.2]
    decide

/-- C8: every job that returns successfully returns a non-empty string:
when the transcript file's content strips to the empty string the result is
the fixed placeholder `No speech detected.`, and otherwise it is the
stripped content itself. -/
theorem c8_success_nonempty (env : Env) (cfg : WhisperConfig) (fmt r : String)
    (h : (transcribeTask env cfg fmt).result = .ok r) :
    r ≠ ""
    ∧ (pyStrip env.transcriptContent = "" → r = "No speech detected.")
    ∧ (pyStrip env.transcriptContent ≠ "" → r = pyStrip env.transcriptContent) := by
  have hr := transcribeTask_result_ok env cfg fmt r h
  refine ⟨?_, ?_, ?_⟩
  · by_cases hts : pyStrip env.transcriptContent = ""
    · rw [hr, if_pos hts]
      decide
    · rw [hr, if_neg hts]
      exact hts
  · intro hts
    rw [hr, if_pos hts]
  · intro hts
    rw [hr, if_neg hts]

/-- C8 witness: a whitespace-only transcript yields the placeholder, which
is non-empty. -/
theorem c8_success_nonempty_witness :
    (transcribeTask envWS cfgDefault "plain").result = .ok "No speech detected."
    ∧ "No speech detected." ≠ "" := by
  have h : (transcribeTask envWS cfgDefault "plain").result
      = .ok "No speech detected." := by rfl
  exact ⟨h, (c8_success_nonempty envWS cfgDefault "plain" "No speech detected." h).1⟩

lemma observedProgress_eq (o : TaskOutcome) :
    observedProgress o
      = 0 :: ((o.events.map fun e => match e with | .progress _ p => p) ++ [100]) := by
  unfold observedProgress lifecycleStates
  rw [List.map_cons, List.map_append, List.map_map]
  have h1 : ((fun s => ((getResult s).progress).getD 0) ∘ fun e =>
      match e with | Event.progress s p => CeleryState.progressing s p)
      = fun e => match e with | Event.progress _ p => p := by
    funext e
    cases e
    rfl
  have h2 : (List.map (fun s => ((getResult s).progress).getD 0)
      [match o.result with
        | .ok t => CeleryState.success t
        | .error e => CeleryState.failure (jobErrMsg e)]) = [100] := by
    cases o.result <;> rfl
  rw [h1, h2]
  rfl

/-- C9: the progress values observable through `get_result` over a job's
lifecycle form a subsequence of `0, 10, 50, 90, 100` (so they occur in the
declared Queued → Downloading → Transcribing → Finalizing → terminal order,
each value drawn from that set) and are non-decreasing. -/
theorem c9_progress_monotone (env : Env) (cfg : WhisperConfig) (fmt : String) :
    List.Sublist (observedProgress (transcribeTask env cfg fmt))
      [0, 10, 50, 90, 100]
    ∧ List.Chain' (fun a b => a ≤ b)
      (observedProgress (transcribeTask env cfg fmt)) := by
  rcases transcribeTask_events_cases env cfg fmt with h | h | h <;>
    rw [observedProgress_eq, h] <;>
    exact ⟨by decide, by simp [List.chain'_cons]⟩

/-- C2 is refuted by the code: `refresh_cookies` enters
`redis_client.lock(COOKIE_LOCK, timeout=60)` with redis-py's blocking
defaults, so a refresh that starts while another process holds the lock
(here: lock free at t=5) does not return immediately — it waits, acquires
the lock and invokes the yt-dlp cookie-export command itself, returning
only at t=10; together with the first caller (lock free at t=0) the export
command is invoked twice within the 60-second TTL window. -/
theorem c2_lock_not_single_flight :
    (refreshCookies ⟨true, 0, 5⟩ 0).invokedExport = true
    ∧ (refreshCookies ⟨true, 5, 5⟩ 0).invokedExport = true
    ∧ (refreshCookies ⟨true, 5, 5⟩ 0).returnedAt = 10 :=
  ⟨rfl, rfl, rfl⟩

/-- C10: for a format other than `plain` and `timestamps` (which the
submission endpoint passes through unvalidated), the built command carries
no output-format marker at all, yet `transcribe_task` looks for an `.srt`
transcript; with a transcription engine that only produces requested
formats, the job therefore fails with a missing-transcript error instead of
falling back to the `plain` behaviour. -/
theorem c10_unknown_format (env : Env) (cfg : WhisperConfig) (fmt : String)
    (hat : env.attempts 0 = .ok "video1")
    (hout : env.whisperOutputs = specWhisperOutputs)
    (hp : fmt ≠ "plain") (hts : fmt ≠ "timestamps")
    (hfresh : ∀ v ∈ inputValues cfg "/tmp/dl0/video1.wav" "/tmp/dl0/video1",
      v ∉ fmtMarkers) :
    (∀ m ∈ fmtMarkers,
      m ∉ buildWhisperCmd cfg "/tmp/dl0/video1.wav" "/tmp/dl0/video1" fmt)
    ∧ (env.whisperExit = true →
      (transcribeTask env cfg fmt).result
        = .error (.transcriptMissing "/tmp/dl0/video1.srt")) := by
  have habs := markers_absent cfg "/tmp/dl0/video1.wav" "/tmp/dl0/video1" fmt
    hfresh hp hts
  refine ⟨habs, ?_⟩
  intro hex
  have hdl : (downloadAudioR env).outcome = .ok "/tmp/dl0/video1.wav" := by
    simp only [downloadAudioR, retryGo, attemptRun, hat]
    decide
  have hsplit : pySplitextRoot "/tmp/dl0/video1.wav" = "/tmp/dl0/video1" := by
    decide
  have hmem : ("/tmp/dl0/video1" ++ "." ++ "srt")
      ∉ specWhisperOutputs
        (buildWhisperCmd cfg "/tmp/dl0/video1.wav" "/tmp/dl0/video1" fmt)
        "/tmp/dl0/video1" := by
    unfold specWhisperOutputs
    rw [if_neg (habs "--output-txt" (by decide)),
      if_neg (habs "--output-srt" (by decide))]
    simp
  unfold transcribeTask
  simp only [safeDownloadAudio, hdl]
  have hneq : ¬(env.whisperExit = false) := by rw [hex]; simp
  rw [if_neg hneq, hsplit, if_neg hp, hout, if_neg hmem]
  rfl

/-- C10 witness: submitting format `srt` with the default configuration
fails with the missing-transcript error at the `.srt` path. -/
theorem c10_unknown_format_witness :
    (transcribeTask envHello cfgDefault "srt").result
      = .error (.transcriptMissing "/tmp/dl0/video1.srt") := by
  exact (c10_unknown_format envHello cfgDefault "srt" rfl rfl (by decide)
    (by decide) (by decide)).2 rfl

/-- C6 witness: with `cfgC6` (empty model path, max-context 60, word-split
on, translate off) the `--model` flag is omitted, `--max-context` appears
paired with its quoted value, `--split-on-word` appears and `--translate`
does not. -/
theorem c6_option_omission_witness :
    "--model" ∉ buildWhisperCmd cfgC6 "/tmp/a.wav" "/tmp/a" "plain"
    ∧ (∃ pre suf, buildWhisperCmd cfgC6 "/tmp/a.wav" "/tmp/a" "plain"
        = pre ++ ["--max-context", shlexQuote "60"] ++ suf)
    ∧ "--split-on-word" ∈ buildWhisperCmd cfgC6 "/tmp/a.wav" "/tmp/a" "plain"
    ∧ "--translate" ∉ buildWhisperCmd cfgC6 "/tmp/a.wav" "/tmp/a" "plain" := by
  have h := c6_option_omission cfgC6 "/tmp/a.wav" "/tmp/a" "plain"
  refine ⟨?_, ?_, ?_, ?_⟩
  · exact (h.1 ("--model", cfgC6.model_path) (by simp [optionTable])).1
      (Or.inl rfl) (by decide)
  · exact (h.1 ("--max-context", cfgC6.max_context) (by simp [optionTable])).2
      (by decide) (by decide)
  · exact (h.2.2 (by decide)).mpr rfl
  · intro hmem
    exact absurd ((h.2.1 (by decide)).mp hmem) (by decide)

/-- C7 witness: with the default configuration and format `plain`, the
command requests the text output and not the subtitle output. -/
theorem c7_format_branches_witness :
    "--output-txt" ∈ buildWhisperCmd cfgDefault "/tmp/a.wav" "/tmp/a" "plain"
    ∧ "--output-srt" ∉ buildWhisperCmd cfgDefault "/tmp/a.wav" "/tmp/a" "plain" := by
  have h := c7_format_branches cfgDefault "/tmp/a.wav" "/tmp/a" "plain" (by decide)
  exact ⟨(h.1 rfl).1, (h.1 rfl).2.2⟩

end Websoitez


